import Mathlib

/-!
Shallow embedding of the lucide-cpp icon library (lucideicon.hpp/.cpp and
src/iconwrapper.hpp/.cpp), together with theorems settling the spec claims.

The C++ registry is a mutable `unordered_map<string, shared_ptr<Icon>>`; we
embed registry state as an association list passed explicitly, with
`registerIcon` performing the overwriting update of `icons_[name] = ...` and
`getIcon` performing `find`.  C++ `int` fields are embedded as `Int` and the
stream insertion `ss << intValue` as `toString`.  Exception-throwing
constructors are embedded as `Except String`-returning functions.
-/

namespace LucideIcon

/-- Embedding of `struct IconConfig` (lucideicon.hpp, lines 11-36) with its
field initializers. -/
structure IconConfig where
  width : Int := 24
  height : Int := 24
  size : Int := 24
  stroke : String := "currentColor"
  strokeWidth : Int := 2
  strokeLinecap : String := "round"
  strokeLinejoin : String := "round"
  fill : String := "none"
  color : String := "currentColor"
  className : String := ""
  style : String := ""
deriving DecidableEq

/-- Embeds `IconConfig::setSize` (lucideicon.hpp): sets size, width and height. -/
def IconConfig.setSize (c : IconConfig) (s : Int) : IconConfig :=
  { c with size := s, width := s, height := s }

/-- Embeds `IconConfig::setColor` (lucideicon.hpp): sets color and stroke. -/
def IconConfig.setColor (c : IconConfig) (col : String) : IconConfig :=
  { c with color := col, stroke := col }

/-- Embedding of `class Icon`: immutable name plus raw path data. -/
structure Icon where
  name : String
  pathData : String
deriving DecidableEq

/-- Embeds `Icon::getName`. -/
def Icon.getName (i : Icon) : String := i.name

/-- Embeds `Icon::getPathData`. -/
def Icon.getPathData (i : Icon) : String := i.pathData

/-- Embeds `Icon::buildSVG` (lucideicon.cpp, lines 22-49): the sequence of
`ss << ...` insertions, in source order. -/
def Icon.buildSVG (icon : Icon) (config : IconConfig) : String :=
  "<svg" ++
  " xmlns=\"http://www.w3.org/2000/svg\"" ++
  " width=\"" ++ toString config.width ++ "\"" ++
  " height=\"" ++ toString config.height ++ "\"" ++
  " viewBox=\"0 0 24 24\"" ++
  " fill=\"" ++ config.fill ++ "\"" ++
  " stroke=\"" ++ config.stroke ++ "\"" ++
  " stroke-width=\"" ++ toString config.strokeWidth ++ "\"" ++
  " stroke-linecap=\"" ++ config.strokeLinecap ++ "\"" ++
  " stroke-linejoin=\"" ++ config.strokeLinejoin ++ "\"" ++
  (if config.className ≠ "" then " class=\"" ++ config.className ++ "\"" else "") ++
  (if config.style ≠ "" then " style=\"" ++ config.style ++ "\"" else "") ++
  ">" ++
  icon.pathData ++
  "</svg>"

/-- Embeds `Icon::toSVG(config)` delegates to `buildSVG`. -/
def Icon.toSVG (icon : Icon) (config : IconConfig) : String :=
  icon.buildSVG config

/-- Registry state: the `icons_` map of `IconRegistry`, as an association
list from icon name to `Icon`. -/
abbrev Registry := List (String × Icon)

/-- Embeds `IconRegistry::registerIcon` (lucideicon.cpp, lines 57-59):
`icons_[name] = make_shared<Icon>(name, pathData)`, an overwriting map
update. -/
def registerIcon (r : Registry) (name pathData : String) : Registry :=
  (name, Icon.mk name pathData) :: r.filter (fun e => e.1 ≠ name)

/-- Embeds `IconRegistry::getIcon` (lucideicon.cpp, lines 61-64): map lookup,
`nullptr` when absent. -/
def getIcon : Registry → String → Option Icon
  | [], _ => none
  | (k, i) :: rest, name => if k = name then some i else getIcon rest name

/-- Embeds `IconRegistry::hasIcon`. -/
def hasIcon (r : Registry) (name : String) : Bool :=
  (getIcon r name).isSome

/-- Embeds `IconRegistry::generateSVG` (lucideicon.cpp, lines 82-85):
`icon ? icon->toSVG(config) : ""`. -/
def generateSVG (r : Registry) (name : String) (config : IconConfig) : String :=
  match getIcon r name with
  | some icon => icon.toSVG config
  | none => ""

/-- Embedding of `class IconWrapper`: the bound icon handle (`shared_ptr`,
hence `Option`: `none` is the null handle) and the owned configuration. -/
structure IconWrapper where
  icon : Option Icon
  config : IconConfig
deriving DecidableEq

/-- Embeds `IconWrapper::IconWrapper(const std::string&)` (iconwrapper.cpp, lines
14-21): looks the name up in the registry, throws `runtime_error("Icon not
found: " + iconName)` when absent, otherwise binds the icon with the
default configuration. -/
def IconWrapper.ofName (r : Registry) (iconName : String) : Except String IconWrapper :=
  match getIcon r iconName with
  | some i => .ok { icon := some i, config := {} }
  | none => .error ("Icon not found: " ++ iconName)

/-- Embeds `IconWrapper::IconWrapper(std::shared_ptr<Icon>)` (iconwrapper.cpp,
lines 23-28): throws `runtime_error("Invalid icon provided")` on a null
handle. -/
def IconWrapper.ofIcon (icon : Option Icon) : Except String IconWrapper :=
  match icon with
  | some i => .ok { icon := some i, config := {} }
  | none => .error "Invalid icon provided"

/-- Embeds `IconWrapper::size(int, int)` (iconwrapper.cpp, lines 30-34): sets only
`config_.width` and `config_.height`. -/
def IconWrapper.size2 (w : IconWrapper) (width height : Int) : IconWrapper :=
  { w with config := { w.config with width := width, height := height } }

/-- Embeds `IconWrapper::size(int)` (iconwrapper.cpp, lines 36-38): delegates to
the two-argument overload. -/
def IconWrapper.size (w : IconWrapper) (s : Int) : IconWrapper :=
  w.size2 s s

/-- Embeds `IconWrapper::stroke`. -/
def IconWrapper.stroke (w : IconWrapper) (color : String) : IconWrapper :=
  { w with config := { w.config with stroke := color } }

/-- Embeds `IconWrapper::strokeWidth`. -/
def IconWrapper.strokeWidth (w : IconWrapper) (width : Int) : IconWrapper :=
  { w with config := { w.config with strokeWidth := width } }

/-- Embeds `IconWrapper::fill`. -/
def IconWrapper.fill (w : IconWrapper) (color : String) : IconWrapper :=
  { w with config := { w.config with fill := color } }

/-- Embeds `IconWrapper::className`. -/
def IconWrapper.className (w : IconWrapper) (cls : String) : IconWrapper :=
  { w with config := { w.config with className := cls } }

/-- Embeds `IconWrapper::style`. -/
def IconWrapper.style (w : IconWrapper) (styleStr : String) : IconWrapper :=
  { w with config := { w.config with style := styleStr } }

/-- Embeds `IconWrapper::render` (iconwrapper.cpp, lines 65-70): returns `""` on a
null handle (defensive branch), else delegates to the icon's `toSVG`. -/
def IconWrapper.render (w : IconWrapper) : String :=
  match w.icon with
  | none => ""
  | some i => i.toSVG w.config

/-- Embeds `IconWrapper::reset`. -/
def IconWrapper.reset (w : IconWrapper) : IconWrapper :=
  { w with config := {} }

/-- Embeds `IconWrapper::color` (iconwrapper.cpp, lines 83-88): sets `color`,
`stroke` and `fill` all to the same value. -/
def IconWrapper.color (w : IconWrapper) (c : String) : IconWrapper :=
  { w with config := { w.config with color := c, stroke := c, fill := c } }

/-- Embeds `IconWrapper::renderMultiple` (iconwrapper.cpp, lines 90-109): per
name, push `icon->toSVG(config)` when found, else push `""`. -/
def renderMultiple (r : Registry) (iconNames : List String) (config : IconConfig) :
    List String :=
  iconNames.map (fun iconName =>
    match getIcon r iconName with
    | some icon => icon.toSVG config
    | none => "")

/-- Embedding of `class IconCollection`: name plus ordered list of icon
names. -/
structure IconCollection where
  name : String
  iconNames : List String := []
deriving DecidableEq

/-- Embeds `IconCollection::addIcon` (iconwrapper.cpp, lines 114-119): appends the
name only when the registry has it. -/
def IconCollection.addIcon (r : Registry) (c : IconCollection) (iconName : String) :
    IconCollection :=
  if hasIcon r iconName then { c with iconNames := c.iconNames ++ [iconName] } else c

/-- Embeds `IconCollection::renderAll`. -/
def IconCollection.renderAll (r : Registry) (c : IconCollection) (config : IconConfig) :
    List String :=
  renderMultiple r c.iconNames config

/-- Embedding of `class IconTheme`: name plus the theme's configuration. -/
structure IconTheme where
  name : String
  themeConfig : IconConfig := {}
deriving DecidableEq

/-- Embeds `IconTheme::setDefaultStroke`. -/
def IconTheme.setDefaultStroke (t : IconTheme) (color : String) : IconTheme :=
  { t with themeConfig := { t.themeConfig with stroke := color } }

/-- Embeds `IconTheme::setDefaultFill`. -/
def IconTheme.setDefaultFill (t : IconTheme) (color : String) : IconTheme :=
  { t with themeConfig := { t.themeConfig with fill := color } }

/-- Embeds `IconTheme::setDefaultStrokeWidth`. -/
def IconTheme.setDefaultStrokeWidth (t : IconTheme) (width : Int) : IconTheme :=
  { t with themeConfig := { t.themeConfig with strokeWidth := width } }

/-- Embeds `IconTheme::setDefaultSize`: delegates to `IconConfig::setSize`. -/
def IconTheme.setDefaultSize (t : IconTheme) (s : Int) : IconTheme :=
  { t with themeConfig := t.themeConfig.setSize s }

/-- Embeds `IconTheme::setDefaultColor`: delegates to `IconConfig::setColor`. -/
def IconTheme.setDefaultColor (t : IconTheme) (color : String) : IconTheme :=
  { t with themeConfig := t.themeConfig.setColor color }

/-- Embeds `IconTheme::applyTheme` (iconwrapper.cpp, lines 176-197): the five
guarded overrides, in source order.  Note the string fields guard on the
theme value being *empty*, while the numeric fields guard on it equalling
the global default. -/
def IconTheme.applyTheme (t : IconTheme) (baseConfig : IconConfig) : IconConfig :=
  let result := baseConfig
  let result :=
    if baseConfig.stroke = "currentColor" then
      { result with stroke :=
          if t.themeConfig.stroke = "" then "currentColor" else t.themeConfig.stroke }
    else result
  let result :=
    if baseConfig.fill = "none" then
      { result with fill :=
          if t.themeConfig.fill = "" then "none" else t.themeConfig.fill }
    else result
  let result :=
    if baseConfig.strokeWidth = 2 then
      { result with strokeWidth :=
          if t.themeConfig.strokeWidth = 2 then 2 else t.themeConfig.strokeWidth }
    else result
  let result :=
    if baseConfig.width = 24 then
      { result with width :=
          if t.themeConfig.width = 24 then 24 else t.themeConfig.width }
    else result
  let result :=
    if baseConfig.height = 24 then
      { result with height :=
          if t.themeConfig.height = 24 then 24 else t.themeConfig.height }
    else result
  result

/-- Embeds `IconTheme::light` (iconwrapper.cpp, lines 199-206). -/
def IconTheme.light : IconTheme :=
  ((((IconTheme.mk "light" {}).setDefaultStroke "#000000").setDefaultFill
    "none").setDefaultStrokeWidth 2).setDefaultSize 24

/-- Embeds `IconTheme::dark` (iconwrapper.cpp, lines 208-215). -/
def IconTheme.dark : IconTheme :=
  ((((IconTheme.mk "dark" {}).setDefaultStroke "#ffffff").setDefaultFill
    "none").setDefaultStrokeWidth 2).setDefaultSize 24

/-- Embeds `IconTheme::colorful` (iconwrapper.cpp, lines 217-224). -/
def IconTheme.colorful : IconTheme :=
  ((((IconTheme.mk "colorful" {}).setDefaultStroke "#3b82f6").setDefaultFill
    "#dbeafe").setDefaultStrokeWidth 2).setDefaultSize 24

/-- The theme-merge rule exactly as claim C1 words it: a field in
{stroke, fill, strokeWidth, width, height} is replaced by the theme's
stored value exactly when the base value equals the global hardcoded
default for that field and the theme's stored value differs from that
global default, and is left at the base value otherwise. -/
def applyThemeClaimed (t : IconTheme) (base : IconConfig) : IconConfig :=
  { base with
    stroke :=
      if base.stroke = "currentColor" ∧ t.themeConfig.stroke ≠ "currentColor" then
        t.themeConfig.stroke
      else base.stroke
    fill :=
      if base.fill = "none" ∧ t.themeConfig.fill ≠ "none" then
        t.themeConfig.fill
      else base.fill
    strokeWidth :=
      if base.strokeWidth = 2 ∧ t.themeConfig.strokeWidth ≠ 2 then
        t.themeConfig.strokeWidth
      else base.strokeWidth
    width :=
      if base.width = 24 ∧ t.themeConfig.width ≠ 24 then
        t.themeConfig.width
      else base.width
    height :=
      if base.height = 24 ∧ t.themeConfig.height ≠ 24 then
        t.themeConfig.height
      else base.height }

/-- Substring containment: `m` occurs contiguously inside `s`. -/
def ContainsStr (s m : String) : Prop :=
  ∃ a b : String, s = a ++ (m ++ b)

/-- A concrete sample registry used by witnesses: one icon named "home". -/
def sampleReg : Registry := registerIcon [] "home" "<path d=\"M3 12h18\"/>"

/-- The sample icon stored in `sampleReg`. -/
def sampleIcon : Icon := Icon.mk "home" "<path d=\"M3 12h18\"/>"

/-- Appending the empty string on the right is the identity. -/
theorem str_append_empty (s : String) : s ++ "" = s := by
  obtain ⟨data⟩ := s
  show String.mk (data ++ []) = String.mk data
  rw [List.append_nil]

/-- Containment is preserved by appending on the right. -/
theorem containsStr_stripR (s₂ : String) {s₁ m : String} (h : ContainsStr s₁ m) :
    ContainsStr (s₁ ++ s₂) m := by
  obtain ⟨a, b, hab⟩ := h
  refine ⟨a, b ++ s₂, ?_⟩
  rw [hab]
  simp only [String.append_assoc]

/-- A three-chunk attribute `p ++ v ++ q` at the end of a string occurs in
it. -/
theorem containsStr_end3 (x p v q : String) :
    ContainsStr (x ++ p ++ v ++ q) (p ++ v ++ q) := by
  refine ⟨x, "", ?_⟩
  rw [str_append_empty]
  simp only [String.append_assoc]

/-- A final chunk that factors as `p ++ m` yields containment of `m`. -/
theorem containsStr_end_split {leaf m : String} (x p : String) (h : leaf = p ++ m) :
    ContainsStr (x ++ leaf) m := by
  refine ⟨x ++ p, "", ?_⟩
  rw [str_append_empty, h, ← String.append_assoc]

/-- The serialized SVG contains the width attribute verbatim. -/
theorem toSVG_contains_width (icon : Icon) (config : IconConfig) :
    ContainsStr (icon.toSVG config) (" width=\"" ++ toString config.width ++ "\"") := by
  unfold Icon.toSVG Icon.buildSVG
  iterate 24 apply containsStr_stripR
  exact containsStr_end3 _ _ _ _

/-- The serialized SVG contains the height attribute verbatim. -/
theorem toSVG_contains_height (icon : Icon) (config : IconConfig) :
    ContainsStr (icon.toSVG config) (" height=\"" ++ toString config.height ++ "\"") := by
  unfold Icon.toSVG Icon.buildSVG
  iterate 21 apply containsStr_stripR
  exact containsStr_end3 _ _ _ _

/-- The serialized SVG contains the fixed viewBox attribute. -/
theorem toSVG_contains_viewBox (icon : Icon) (config : IconConfig) :
    ContainsStr (icon.toSVG config) "viewBox=\"0 0 24 24\"" := by
  unfold Icon.toSVG Icon.buildSVG
  iterate 20 apply containsStr_stripR
  exact containsStr_end_split _ " " rfl

/-- The serialized SVG contains the fill attribute verbatim. -/
theorem toSVG_contains_fill (icon : Icon) (config : IconConfig) :
    ContainsStr (icon.toSVG config) (" fill=\"" ++ config.fill ++ "\"") := by
  unfold Icon.toSVG Icon.buildSVG
  iterate 17 apply containsStr_stripR
  exact containsStr_end3 _ _ _ _

/-- The serialized SVG contains the stroke attribute verbatim. -/
theorem toSVG_contains_stroke (icon : Icon) (config : IconConfig) :
    ContainsStr (icon.toSVG config) (" stroke=\"" ++ config.stroke ++ "\"") := by
  unfold Icon.toSVG Icon.buildSVG
  iterate 14 apply containsStr_stripR
  exact containsStr_end3 _ _ _ _

/-- The serialized SVG contains the stroke-width attribute verbatim. -/
theorem toSVG_contains_strokeWidth (icon : Icon) (config : IconConfig) :
    ContainsStr (icon.toSVG config)
      (" stroke-width=\"" ++ toString config.strokeWidth ++ "\"") := by
  unfold Icon.toSVG Icon.buildSVG
  iterate 11 apply containsStr_stripR
  exact containsStr_end3 _ _ _ _

/-- The serialized SVG contains the stroke-linecap attribute verbatim. -/
theorem toSVG_contains_linecap (icon : Icon) (config : IconConfig) :
    ContainsStr (icon.toSVG config)
      (" stroke-linecap=\"" ++ config.strokeLinecap ++ "\"") := by
  unfold Icon.toSVG Icon.buildSVG
  iterate 8 apply containsStr_stripR
  exact containsStr_end3 _ _ _ _

/-- The serialized SVG contains the stroke-linejoin attribute verbatim. -/
theorem toSVG_contains_linejoin (icon : Icon) (config : IconConfig) :
    ContainsStr (icon.toSVG config)
      (" stroke-linejoin=\"" ++ config.strokeLinejoin ++ "\"") := by
  unfold Icon.toSVG Icon.buildSVG
  iterate 5 apply containsStr_stripR
  exact containsStr_end3 _ _ _ _

/-- The serialized SVG begins with the opening tag. -/
theorem toSVG_startsWith_svg (icon : Icon) (config : IconConfig) :
    ∃ rest, icon.toSVG config = "<svg" ++ rest := by
  unfold Icon.toSVG Icon.buildSVG
  simp only [String.append_assoc]
  exact ⟨_, rfl⟩

/-- The serialized SVG ends with the raw path data followed by the closing
tag. -/
theorem toSVG_suffix (icon : Icon) (config : IconConfig) :
    ∃ a, icon.toSVG config = a ++ (icon.pathData ++ "</svg>") := by
  unfold Icon.toSVG Icon.buildSVG
  exact ⟨_, String.append_assoc _ _ _⟩

/-- C2: for every icon and configuration, `Icon::toSVG` begins with "<svg",
contains the literal `viewBox="0 0 24 24"` regardless of the configured
width and height, emits the width, height, fill, stroke, stroke-width,
stroke-linecap and stroke-linejoin attributes verbatim (unescaped) from the
configuration, emits a class attribute exactly when `className` is
non-empty and a style attribute exactly when `style` is non-empty, and ends
with the raw path data inserted verbatim followed by "</svg>". -/
theorem icon_toSVG_format (icon : Icon) (config : IconConfig) :
    (∃ rest, icon.toSVG config = "<svg" ++ rest)
  ∧ ContainsStr (icon.toSVG config) "viewBox=\"0 0 24 24\""
  ∧ ContainsStr (icon.toSVG config) (" width=\"" ++ toString config.width ++ "\"")
  ∧ ContainsStr (icon.toSVG config) (" height=\"" ++ toString config.height ++ "\"")
  ∧ ContainsStr (icon.toSVG config) (" fill=\"" ++ config.fill ++ "\"")
  ∧ ContainsStr (icon.toSVG config) (" stroke=\"" ++ config.stroke ++ "\"")
  ∧ ContainsStr (icon.toSVG config) (" stroke-width=\"" ++ toString config.strokeWidth ++ "\"")
  ∧ ContainsStr (icon.toSVG config) (" stroke-linecap=\"" ++ config.strokeLinecap ++ "\"")
  ∧ ContainsStr (icon.toSVG config) (" stroke-linejoin=\"" ++ config.strokeLinejoin ++ "\"")
  ∧ (∃ a, icon.toSVG config = a ++ (icon.pathData ++ "</svg>"))
  ∧ icon.toSVG config =
      "<svg xmlns=\"http://www.w3.org/2000/svg\" width=\"" ++ toString config.width ++
      "\" height=\"" ++ toString config.height ++
      "\" viewBox=\"0 0 24 24\" fill=\"" ++ config.fill ++
      "\" stroke=\"" ++ config.stroke ++
      "\" stroke-width=\"" ++ toString config.strokeWidth ++
      "\" stroke-linecap=\"" ++ config.strokeLinecap ++
      "\" stroke-linejoin=\"" ++ config.strokeLinejoin ++ "\"" ++
      (if config.className ≠ "" then " class=\"" ++ config.className ++ "\"" else "") ++
      (if config.style ≠ "" then " style=\"" ++ config.style ++ "\"" else "") ++
      ">" ++ icon.pathData ++ "</svg>" := by
  refine ⟨toSVG_startsWith_svg icon config, toSVG_contains_viewBox icon config,
    toSVG_contains_width icon config, toSVG_contains_height icon config,
    toSVG_contains_fill icon config, toSVG_contains_stroke icon config,
    toSVG_contains_strokeWidth icon config, toSVG_contains_linecap icon config,
    toSVG_contains_linejoin icon config, toSVG_suffix icon config, ?_⟩
  unfold Icon.toSVG Icon.buildSVG
  simp only [String.append_assoc]
  rfl

/-- C3: `IconRegistry::generateSVG` returns the empty string when the name
is not registered (and raises nothing: it is a total function), and the
registered icon's `toSVG(config)` otherwise.  The registry is passed
immutably (`const` method). -/
theorem generateSVG_lookup_contract (r : Registry) (name : String) (config : IconConfig) :
    (getIcon r name = none → generateSVG r name config = "")
  ∧ (∀ icon, getIcon r name = some icon → generateSVG r name config = icon.toSVG config) := by
  constructor
  · intro h
    simp [generateSVG, h]
  · intro icon h
    simp [generateSVG, h]

/-- C3 witness: unknown name on the empty registry gives "", known name on
the sample registry gives the icon's serialization. -/
theorem generateSVG_lookup_contract_witness :
    generateSVG [] "nonexistent" {} = "" ∧
    generateSVG sampleReg "home" {} = sampleIcon.toSVG {} :=
  ⟨(generateSVG_lookup_contract [] "nonexistent" {}).1 rfl,
   (generateSVG_lookup_contract sampleReg "home" {}).2 sampleIcon rfl⟩

/-- C4: `IconWrapper::renderMultiple` is length- and order-preserving, with
the element at index i equal to the toSVG of the icon registered under
names[i] when present and exactly "" when absent. -/
theorem renderMultiple_parallel (r : Registry) (names : List String) (config : IconConfig) :
    (renderMultiple r names config).length = names.length
  ∧ ∀ (i : Nat) (h : i < names.length),
      (getIcon r (names[i]) = none → (renderMultiple r names config)[i]? = some "")
    ∧ (∀ icon, getIcon r (names[i]) = some icon →
        (renderMultiple r names config)[i]? = some (icon.toSVG config)) := by
  constructor
  · simp [renderMultiple]
  · intro i h
    constructor
    · intro hnone
      simp [renderMultiple, List.getElem?_map, List.getElem?_eq_getElem h, hnone]
    · intro icon hsome
      simp [renderMultiple, List.getElem?_map, List.getElem?_eq_getElem h, hsome]

/-- C4 witness: batch render of ["home", "ghost-icon"] on the sample
registry has length 2, a non-empty SVG at index 0, and exactly "" at
index 1. -/
theorem renderMultiple_parallel_witness :
    (renderMultiple sampleReg ["home", "ghost-icon"] {}).length = 2
  ∧ (renderMultiple sampleReg ["home", "ghost-icon"] {})[0]? = some (sampleIcon.toSVG {})
  ∧ (renderMultiple sampleReg ["home", "ghost-icon"] {})[1]? = some "" :=
  ⟨(renderMultiple_parallel sampleReg ["home", "ghost-icon"] {}).1,
   ((renderMultiple_parallel sampleReg ["home", "ghost-icon"] {}).2 0 (by decide)).2
     sampleIcon rfl,
   ((renderMultiple_parallel sampleReg ["home", "ghost-icon"] {}).2 1 (by decide)).1 rfl⟩

/-- C5: after `registerIcon(name, P)`, `getIcon(name)` returns an icon
whose path data is exactly P and whose name is exactly name, with no
transformation; re-registering the same name overwrites, so the last
registration wins. -/
theorem registerIcon_roundtrip (r : Registry) (name P Pold : String) :
    getIcon (registerIcon r name P) name = some (Icon.mk name P)
  ∧ (getIcon (registerIcon r name P) name).map Icon.getPathData = some P
  ∧ (getIcon (registerIcon r name P) name).map Icon.getName = some name
  ∧ getIcon (registerIcon (registerIcon r name Pold) name P) name = some (Icon.mk name P) := by
  simp [registerIcon, getIcon, Icon.getPathData, Icon.getName]

/-- Closed form of `IconTheme::applyTheme`: each of the five themed fields
as a conditional, all other fields untouched. -/
theorem applyTheme_eq (t : IconTheme) (base : IconConfig) :
    t.applyTheme base =
      { base with
        stroke :=
          if base.stroke = "currentColor" then
            (if t.themeConfig.stroke = "" then "currentColor" else t.themeConfig.stroke)
          else base.stroke
        fill :=
          if base.fill = "none" then
            (if t.themeConfig.fill = "" then "none" else t.themeConfig.fill)
          else base.fill
        strokeWidth :=
          if base.strokeWidth = 2 then
            (if t.themeConfig.strokeWidth = 2 then 2 else t.themeConfig.strokeWidth)
          else base.strokeWidth
        width :=
          if base.width = 24 then
            (if t.themeConfig.width = 24 then 24 else t.themeConfig.width)
          else base.width
        height :=
          if base.height = 24 then
            (if t.themeConfig.height = 24 then 24 else t.themeConfig.height)
          else base.height } := by
  simp only [IconTheme.applyTheme]
  split_ifs <;> rfl

/-- C1 counterexample: the claim's merge rule (theme value applied exactly
when it differs from the global default) fails for a theme whose stroke
was set to the empty string: the code keeps "currentColor" where the
claimed rule would install "". -/
theorem applyTheme_claim_counterexample :
    ((IconTheme.mk "t" {}).setDefaultStroke "").applyTheme {} ≠
      applyThemeClaimed ((IconTheme.mk "t" {}).setDefaultStroke "") {} ∧
    (((IconTheme.mk "t" {}).setDefaultStroke "").applyTheme {}).stroke = "currentColor" ∧
    (applyThemeClaimed ((IconTheme.mk "t" {}).setDefaultStroke "") {}).stroke = "" := by
  refine ⟨?_, rfl, rfl⟩
  decide

/-- C1 (amended): for stroke and fill the theme's stored value is applied
exactly when the base value equals the global hardcoded default and the
theme's stored value is non-empty (an empty theme value leaves the global
default in place); for strokeWidth, width and height it is applied exactly
when the base value equals the global default and the theme's value
differs from it; all other fields are never changed; and
`IconTheme::dark().applyTheme(IconConfig{})` yields stroke "#ffffff", fill
"none", strokeWidth 2, width 24 and height 24. -/
theorem applyTheme_amended_rule (t : IconTheme) (base : IconConfig) :
    (t.applyTheme base).stroke =
      (if base.stroke = "currentColor" ∧ t.themeConfig.stroke ≠ "" then t.themeConfig.stroke
       else base.stroke)
  ∧ (t.applyTheme base).fill =
      (if base.fill = "none" ∧ t.themeConfig.fill ≠ "" then t.themeConfig.fill
       else base.fill)
  ∧ (t.applyTheme base).strokeWidth =
      (if base.strokeWidth = 2 ∧ t.themeConfig.strokeWidth ≠ 2 then t.themeConfig.strokeWidth
       else base.strokeWidth)
  ∧ (t.applyTheme base).width =
      (if base.width = 24 ∧ t.themeConfig.width ≠ 24 then t.themeConfig.width else base.width)
  ∧ (t.applyTheme base).height =
      (if base.height = 24 ∧ t.themeConfig.height ≠ 24 then t.themeConfig.height
       else base.height)
  ∧ (t.applyTheme base).strokeLinecap = base.strokeLinecap
  ∧ (t.applyTheme base).strokeLinejoin = base.strokeLinejoin
  ∧ (t.applyTheme base).className = base.className
  ∧ (t.applyTheme base).style = base.style
  ∧ (t.applyTheme base).size = base.size
  ∧ (t.applyTheme base).color = base.color
  ∧ IconTheme.dark.applyTheme {} =
      { stroke := "#ffffff", fill := "none", strokeWidth := 2, width := 24, height := 24 } := by
  refine ⟨?_, ?_, ?_, ?_, ?_, ?_, ?_, ?_, ?_, ?_, ?_, by decide⟩ <;>
    simp only [applyTheme_eq] <;> (first | rfl | (split_ifs <;> simp_all))

/-- C6: on a wrapper bound to an icon, `size(s)` followed by `render()`
emits width="s" and height="s"; `color(c)` followed by `render()` emits
both stroke="c" and fill="c"; setters chain as combined field updates; a
later `stroke`/`fill` call overrides only that one channel. -/
theorem wrapper_size_color_render (w : IconWrapper) (s : Int) (c c2 : String) (i : Icon)
    (hi : w.icon = some i) :
    ContainsStr (w.size s).render (" width=\"" ++ toString s ++ "\"")
  ∧ ContainsStr (w.size s).render (" height=\"" ++ toString s ++ "\"")
  ∧ ContainsStr (w.color c).render (" stroke=\"" ++ c ++ "\"")
  ∧ ContainsStr (w.color c).render (" fill=\"" ++ c ++ "\"")
  ∧ ((w.size s).color c).config =
      { w.config with width := s, height := s, stroke := c, fill := c, color := c }
  ∧ ((w.color c).stroke c2).config.fill = c
  ∧ ((w.color c).stroke c2).config.stroke = c2
  ∧ ((w.color c).fill c2).config.stroke = c
  ∧ ((w.color c).fill c2).config.fill = c2 := by
  have hs : (w.size s).render = i.toSVG { w.config with width := s, height := s } := by
    simp [IconWrapper.render, IconWrapper.size, IconWrapper.size2, hi]
  have hc : (w.color c).render =
      i.toSVG { w.config with color := c, stroke := c, fill := c } := by
    simp [IconWrapper.render, IconWrapper.color, hi]
  refine ⟨?_, ?_, ?_, ?_, rfl, rfl, rfl, rfl, rfl⟩
  · rw [hs]
    exact toSVG_contains_width i _
  · rw [hs]
    exact toSVG_contains_height i _
  · rw [hc]
    exact toSVG_contains_stroke i _
  · rw [hc]
    exact toSVG_contains_fill i _

/-- C6 witness: the sample icon at size 32 renders width="32" in the
output, and color "#ff0000" renders stroke="#ff0000". -/
theorem wrapper_size_color_render_witness :
    ContainsStr ((IconWrapper.mk (some sampleIcon) {}).size 32).render
      (" width=\"" ++ toString (32 : Int) ++ "\"")
  ∧ ContainsStr ((IconWrapper.mk (some sampleIcon) {}).color "#ff0000").render
      (" stroke=\"" ++ "#ff0000" ++ "\"") :=
  ⟨(wrapper_size_color_render (IconWrapper.mk (some sampleIcon) {}) 32 "#ff0000" "b"
      sampleIcon rfl).1,
   (wrapper_size_color_render (IconWrapper.mk (some sampleIcon) {}) 32 "#ff0000" "b"
      sampleIcon rfl).2.2.1⟩

/-- C7: `IconCollection::addIcon` leaves the collection unchanged when the
name is not registered and appends the name at the end when it is; no
error is signalled in either case (the operation is total). -/
theorem collection_addIcon_guard (r : Registry) (c : IconCollection) (iconName : String) :
    (hasIcon r iconName = false → IconCollection.addIcon r c iconName = c)
  ∧ (hasIcon r iconName = true →
      (IconCollection.addIcon r c iconName).iconNames = c.iconNames ++ [iconName]
    ∧ (IconCollection.addIcon r c iconName).name = c.name) := by
  constructor
  · intro h
    simp [IconCollection.addIcon, h]
  · intro h
    simp [IconCollection.addIcon, h]

/-- C7 witness: adding a missing name leaves the collection unchanged;
adding the registered "home" appends it. -/
theorem collection_addIcon_guard_witness :
    IconCollection.addIcon sampleReg (IconCollection.mk "col" []) "missing-name" =
      IconCollection.mk "col" []
  ∧ (IconCollection.addIcon sampleReg (IconCollection.mk "col" []) "home").iconNames =
      [] ++ ["home"] :=
  ⟨(collection_addIcon_guard sampleReg (IconCollection.mk "col" []) "missing-name").1 rfl,
   ((collection_addIcon_guard sampleReg (IconCollection.mk "col" []) "home").2 rfl).1⟩

/-- C8: constructing a wrapper from an unregistered name or a null handle
yields the descriptive error; construction from a registered name or
non-null handle succeeds with the default configuration; any successfully
constructed wrapper has a bound icon, so `render()` takes the toSVG path,
never the defensive empty-string branch. -/
theorem wrapper_construction_contract (r : Registry) (n : String) :
    (getIcon r n = none → IconWrapper.ofName r n = .error ("Icon not found: " ++ n))
  ∧ (∀ i, getIcon r n = some i → IconWrapper.ofName r n = .ok (IconWrapper.mk (some i) {}))
  ∧ IconWrapper.ofIcon none = .error "Invalid icon provided"
  ∧ (∀ i : Icon, IconWrapper.ofIcon (some i) = .ok (IconWrapper.mk (some i) {}))
  ∧ (∀ w, IconWrapper.ofName r n = .ok w →
      ∃ i, w.icon = some i ∧ w.render = i.toSVG w.config)
  ∧ (∀ w io, IconWrapper.ofIcon io = .ok w →
      ∃ i, w.icon = some i ∧ w.render = i.toSVG w.config) := by
  refine ⟨?_, ?_, rfl, fun i => rfl, ?_, ?_⟩
  · intro h
    simp [IconWrapper.ofName, h]
  · intro i h
    simp [IconWrapper.ofName, h]
  · intro w hw
    unfold IconWrapper.ofName at hw
    cases hg : getIcon r n <;> simp [hg] at hw
    subst hw
    exact ⟨_, rfl, rfl⟩
  · intro w io hw
    unfold IconWrapper.ofIcon at hw
    cases io <;> simp at hw
    subst hw
    exact ⟨_, rfl, rfl⟩

/-- C8 witness: an unknown name errors with the descriptive message, the
registered "home" constructs successfully. -/
theorem wrapper_construction_contract_witness :
    IconWrapper.ofName sampleReg "nope" = .error ("Icon not found: " ++ "nope")
  ∧ IconWrapper.ofName sampleReg "home" = .ok (IconWrapper.mk (some sampleIcon) {}) :=
  ⟨(wrapper_construction_contract sampleReg "nope").1 rfl,
   (wrapper_construction_contract sampleReg "home").2.1 sampleIcon rfl⟩

/-- C9: `IconWrapper::size` mutates only width and height of the wrapper's
configuration, leaving the convenience `size` field (and every other
field) unchanged, unlike `IconConfig::setSize` which synchronizes all
three; hence after `size(s)` with s different from the prior size value,
`config.size` differs from `config.width`. -/
theorem wrapper_size_frame (w : IconWrapper) (s : Int) :
    (s ≠ w.config.size → (w.size s).config.size ≠ (w.size s).config.width)
  ∧ (w.size s).config.size = w.config.size
  ∧ (w.size s).config.width = s
  ∧ (w.size s).config.height = s
  ∧ (w.size s).icon = w.icon
  ∧ (w.size s).config.stroke = w.config.stroke
  ∧ (w.size s).config.strokeWidth = w.config.strokeWidth
  ∧ (w.size s).config.strokeLinecap = w.config.strokeLinecap
  ∧ (w.size s).config.strokeLinejoin = w.config.strokeLinejoin
  ∧ (w.size s).config.fill = w.config.fill
  ∧ (w.size s).config.color = w.config.color
  ∧ (w.size s).config.className = w.config.className
  ∧ (w.size s).config.style = w.config.style
  ∧ (∀ wd ht : Int, (w.size2 wd ht).config.size = w.config.size)
  ∧ ((w.config.setSize s).size = s ∧ (w.config.setSize s).width = s
      ∧ (w.config.setSize s).height = s) :=
  ⟨fun h heq => h heq.symm, rfl, rfl, rfl, rfl, rfl, rfl, rfl, rfl, rfl, rfl, rfl, rfl,
   fun _ _ => rfl, rfl, rfl, rfl⟩

/-- C9 witness: at size 32 from the default configuration (size 24), the
wrapper's size and width fields disagree. -/
theorem wrapper_size_frame_witness :
    ((IconWrapper.mk (some sampleIcon) {}).size 32).config.size ≠
      ((IconWrapper.mk (some sampleIcon) {}).size 32).config.width :=
  (wrapper_size_frame (IconWrapper.mk (some sampleIcon) {}) 32).1 (by decide)

/-- C10: serialization does not read the convenience fields: two
configurations agreeing on everything except `color` and `size` serialize
identically for every icon. -/
theorem toSVG_ignores_convenience_fields (icon : Icon) (c₁ c₂ : IconConfig)
    (hw : c₁.width = c₂.width) (hh : c₁.height = c₂.height)
    (hst : c₁.stroke = c₂.stroke) (hsw : c₁.strokeWidth = c₂.strokeWidth)
    (hlc : c₁.strokeLinecap = c₂.strokeLinecap)
    (hlj : c₁.strokeLinejoin = c₂.strokeLinejoin)
    (hf : c₁.fill = c₂.fill) (hcn : c₁.className = c₂.className)
    (hsty : c₁.style = c₂.style) :
    icon.toSVG c₁ = icon.toSVG c₂ := by
  unfold Icon.toSVG Icon.buildSVG
  rw [hw, hh, hst, hsw, hlc, hlj, hf, hcn, hsty]

/-- C10 witness: changing only color and size away from the defaults does
not change the sample icon's serialization. -/
theorem toSVG_ignores_convenience_fields_witness :
    sampleIcon.toSVG { color := "#ff0000", size := 5 } = sampleIcon.toSVG {} :=
  toSVG_ignores_convenience_fields sampleIcon { color := "#ff0000", size := 5 } {}
    rfl rfl rfl rfl rfl rfl rfl rfl rfl

end LucideIcon
